import Mathlib

/-!
Shallow embedding of the moderation pipeline in `src/cogs/aiautomod.py`
(classes `UserDataManager`, `SpamCheck`, `BlacklistCheck`, `ToxicityCheck`,
`MessageProcessor`), together with theorems settling the specification
claims about it.

Timestamps are modelled as `Int` (the code uses `time.time()` floats, but
every comparison in the code is ordering/subtraction, preserved by `Int`).
Python dict/deque state is modelled by explicit records and lists; Discord
side effects are modelled by an explicit `Effect` trace.
-/

namespace AutoMod

/-- Per-user state held by `UserDataManager`: the four per-user dicts
`user_warnings[u]`, `user_warning_history[u]`, `user_mutes[u]`,
`user_spam_timestamps[u]`, gathered into one record. -/
structure UserRecord where
  warnings : Nat
  history : List (Nat × Int)
  mutes : Nat
  spam : List Int
deriving Repr, DecidableEq

/-- The defaultdict initial value for a user never seen before:
`int()` = 0, `list()` = [], `deque(maxlen=20)` = empty. -/
def emptyRecord : UserRecord := ⟨0, [], 0, []⟩

/-- Embeds `UserDataManager.decay_old_warnings`: keep only history entries with
`now - tstamp < warning_decay_seconds`, then set the warning counter to the
length of the kept list. -/
def decay_old_warnings (decaySecs : Int) (now : Int) (r : UserRecord) : UserRecord :=
  let newList := r.history.filter (fun p => now - p.2 < decaySecs)
  { r with history := newList, warnings := newList.length }

/-- Embeds `UserDataManager.increment_warning`: decay, bump the counter, append
`(current, now)` to the history, return the new total. -/
def increment_warning (decaySecs : Int) (now : Int) (r : UserRecord) : UserRecord × Nat :=
  let r1 := decay_old_warnings decaySecs now r
  let current := r1.warnings + 1
  ({ r1 with warnings := current, history := r1.history ++ [(current, now)] }, current)

/-- Embeds `UserDataManager.get_warning_count`: decay, then read the counter. -/
def get_warning_count (decaySecs : Int) (now : Int) (r : UserRecord) : UserRecord × Nat :=
  let r1 := decay_old_warnings decaySecs now r
  (r1, r1.warnings)

/-- Embeds `UserDataManager.clear_warnings`: zero the counter, empty the history. -/
def clear_warnings (r : UserRecord) : UserRecord :=
  { r with warnings := 0, history := [] }

/-- Embeds `UserDataManager.increment_mutes`. -/
def increment_mutes (r : UserRecord) : UserRecord :=
  { r with mutes := r.mutes + 1 }

/-- Embeds `deque(maxlen=20).append`: appending to a full bounded deque discards
the oldest (leftmost) entries beyond the capacity. -/
def deque_append (cap : Nat) (q : List Int) (t : Int) : List Int :=
  let q1 := q ++ [t]
  if cap < q1.length then q1.drop (q1.length - cap) else q1

/-- The `while timestamps and (now - timestamps[0]) > spam_interval:
timestamps.popleft()` loop of `SpamCheck.run`: drop leading entries strictly
older than the interval, stopping at the first kept one. -/
def prune_old (interval : Int) (now : Int) : List Int → List Int
  | [] => []
  | t :: rest => if interval < now - t then prune_old interval now rest else t :: rest

/-- Embeds `SpamCheck.run` acting on one user's timestamp deque: skip when a
recognized command is ignored, otherwise append `now` (deque capacity 20),
prune old entries, and report spam when `len(timestamps) >= spam_limit`.
Returns the verdict and the updated deque. -/
def spam_check_run (interval : Int) (limit : Nat) (ignoreCommands isCommand : Bool)
    (q : List Int) (now : Int) : Bool × List Int :=
  if ignoreCommands && isCommand then (false, q)
  else
    let q1 := deque_append 20 q now
    let q2 := prune_old interval now q1
    (decide (limit ≤ q2.length), q2)

/-- Python `str.lower()` at character level (Unicode simple case folding,
modelled by `Char.toLower`). -/
def lowerStr (cs : List Char) : List Char := cs.map Char.toLower

/-- Python `str.strip()` at character level: drop leading and trailing
whitespace. -/
def stripChars (cs : List Char) : List Char :=
  ((cs.dropWhile Char.isWhitespace).reverse.dropWhile Char.isWhitespace).reverse

/-- Python `"|".join(...)` at character level. -/
def joinBar : List (List Char) → List Char
  | [] => []
  | [w] => w
  | w :: rest => w ++ '|' :: joinBar rest

/-- Case-insensitive literal substring search over character lists: the
semantics of `re.search` for a single `re.escape`d word compiled with
`re.IGNORECASE` (case folding modelled by `Char.toLower` on both sides,
applied before the scan). -/
def containsSub (w : List Char) : List Char → Bool
  | [] => w.isEmpty
  | c :: rest => w.isPrefixOf (c :: rest) || containsSub w (rest)

/-- Embeds `BlacklistCheck.run`: the compiled pattern is the `|`-alternation of the
`re.escape`d words with `re.IGNORECASE` (no word-boundary anchors), replaced
by the never-matching dummy `(?!x)x` when the joined pattern strips to
blank; `re.search` on the alternation succeeds iff some word occurs as a
case-insensitive substring of the content. -/
def blacklist_run (words : List String) (content : String) : Bool :=
  if stripChars (joinBar (words.map String.toList)) = [] then false
  else words.any fun w => containsSub (lowerStr w.toList) (lowerStr content.toList)

/-- The default blacklist from `BlacklistCheck.__init__` /
`MessageProcessor.__init__`. -/
def defaultWords : List String := ["spamword1", "spamword2", "badword", "anotherbadword"]

/-- Parsing of the remote reply in `ToxicityCheck.run`:
`response[...].strip().lower().startswith("yes")`. -/
def parse_verdict (reply : String) : Bool :=
  List.isPrefixOf "yes".toList (lowerStr (stripChars reply.toList))

/-- Embeds `ToxicityCheck.run`: one remote call per invocation (there is no cache),
modelled by an oracle giving the outcome of the `idx`-th remote call —
`some reply` for a successful response, `none` for a raised exception
(timeout, error, malformed response). The `except` handler returns `False`.
Returns the verdict and the next call index. -/
def toxicity_run (oracle : Nat → Option String) (idx : Nat) (_content : String) :
    Bool × Nat :=
  match oracle idx with
  | some reply => (parse_verdict reply, idx + 1)
  | none => (false, idx + 1)

/-- The configuration assembled in `MessageProcessor.__init__` /
`UserDataManager.__init__` / `SpamCheck.__init__`. -/
structure Config where
  warning_decay_seconds : Int
  warning_threshold : Nat
  mute_duration : Int
  spam_interval : Int
  spam_limit : Nat
  ignore_commands : Bool
  words : List String
deriving Repr

/-- The defaults hardcoded in `MessageProcessor.__init__`. -/
def defaultConfig : Config :=
  { warning_decay_seconds := 3600, warning_threshold := 3, mute_duration := 60,
    spam_interval := 4, spam_limit := 5, ignore_commands := true, words := defaultWords }

/-- The fields of an inbound `discord.Message` (plus ambient guild facts)
that `MessageProcessor` reads: author bot flag, guild (None for DMs),
author id, content, arrival time, whether `ctx.command is not None`,
whether a role named "Muted" exists in the guild, and whether the author
already carries it. -/
structure Msg where
  author_bot : Bool
  guild : Option Nat
  author_id : Nat
  content : String
  timestamp : Int
  is_command : Bool
  mute_role_exists : Bool
  author_has_mute_role : Bool
deriving Repr

/-- The Discord side effects the pipeline can request, in emission order.
`persistMuteRecord` is the durable-storage write the specification calls
for; it is part of the effect vocabulary so its absence can be stated. -/
inductive Effect where
  | processCommands
  | deleteRecent (userId : Nat) (limit : Nat)
  | deleteMessage
  | sendWarning (userId : Nat) (count : Nat)
  | deleteOwnNotice
  | createMuteRole
  | addMuteRole (userId : Nat)
  | sendMuteNotice (userId : Nat)
  | removeMuteRole (userId : Nat)
  | sendUnmuteNotice (userId : Nat)
  | persistMuteRecord (group : Nat) (userId : Nat) (expiry : Int)
deriving Repr, DecidableEq

/-- Whether an effect is a durable-storage write. -/
def Effect.isPersist : Effect → Bool
  | .persistMuteRecord _ _ _ => true
  | _ => false

/-- The whole in-memory state of one `MessageProcessor`: the
`UserDataManager` dicts (one record per user id — there is no group key in
the code), plus the index of the next remote toxicity call. -/
structure ModState where
  users : Nat → UserRecord
  oracle_idx : Nat

/-- The empty state of a freshly constructed processor. -/
def initialState : ModState := ⟨fun _ => emptyRecord, 0⟩

/-- Point update of the per-user map (dict assignment). -/
def setUser (s : ModState) (u : Nat) (r : UserRecord) : ModState :=
  { s with users := fun x => if x = u then r else s.users x }

/-- Embeds `MessageProcessor.mute_user`: ensure the "Muted" role exists (creating
it if needed), return early if the author already has it, otherwise add the
role, bump the in-memory mute counter, announce, sleep for the mute
duration, remove the role and announce the unmute. No durable record is
written anywhere in this function. -/
def mute_user (msg : Msg) (s : ModState) : ModState × List Effect :=
  let creation := if msg.mute_role_exists then [] else [Effect.createMuteRole]
  if msg.author_has_mute_role then (s, creation)
  else
    let s1 := setUser s msg.author_id (increment_mutes (s.users msg.author_id))
    (s1, creation ++
      [Effect.addMuteRole msg.author_id, Effect.sendMuteNotice msg.author_id,
       Effect.removeMuteRole msg.author_id, Effect.deleteOwnNotice,
       Effect.sendUnmuteNotice msg.author_id, Effect.deleteOwnNotice])

/-- Embeds `MessageProcessor.issue_warning`: increment the author's warning count,
send and then delete the warning notice, and call `mute_user` when the new
count reaches `warning_threshold`. The warning count is not cleared on
mute. -/
def issue_warning (cfg : Config) (msg : Msg) (s : ModState) : ModState × List Effect :=
  let res := increment_warning cfg.warning_decay_seconds msg.timestamp
    (s.users msg.author_id)
  let current := res.2
  let s1 := setUser s msg.author_id res.1
  let effs := [Effect.sendWarning msg.author_id current, Effect.deleteOwnNotice]
  if cfg.warning_threshold ≤ current then
    let m := mute_user msg s1
    (m.1, effs ++ m.2)
  else (s1, effs)

/-- Embeds `MessageProcessor.process`: ignore bot and DM messages; recognized
commands skip moderation and go straight to `process_commands`; otherwise
run the spam, blacklist and toxicity checks in order, short-circuiting on
the first violation (delete/contain, then `issue_warning`); if nothing
fires, run `process_commands`. -/
def process (cfg : Config) (oracle : Nat → Option String) (msg : Msg) (s : ModState) :
    ModState × List Effect :=
  if msg.author_bot || msg.guild.isNone then (s, [])
  else if msg.is_command then (s, [Effect.processCommands])
  else
    let r := s.users msg.author_id
    let sc := spam_check_run cfg.spam_interval cfg.spam_limit
      cfg.ignore_commands false r.spam msg.timestamp
    let s1 := setUser s msg.author_id { r with spam := sc.2 }
    if sc.1 then
      let w := issue_warning cfg msg s1
      (w.1, Effect.deleteRecent msg.author_id 10 :: w.2)
    else if blacklist_run cfg.words msg.content then
      let w := issue_warning cfg msg s1
      (w.1, Effect.deleteMessage :: w.2)
    else
      let tox := toxicity_run oracle s1.oracle_idx msg.content
      let s2 := { s1 with oracle_idx := tox.2 }
      if tox.1 then
        let w := issue_warning cfg msg s2
        (w.1, Effect.deleteMessage :: w.2)
      else (s2, [Effect.processCommands])

/-- Process a list of inbound messages in arrival order, collecting each
message's effect trace. -/
def processAll (cfg : Config) (oracle : Nat → Option String) :
    ModState → List Msg → ModState × List (List Effect)
  | s, [] => (s, [])
  | s, m :: rest =>
    let p := process cfg oracle m s
    let ps := processAll cfg oracle p.1 rest
    (ps.1, p.2 :: ps.2)

/-! ### Spec-side model for the word-boundary claim -/

/-- Word-constituent characters in the sense of the regex `\b` boundary. -/
def isWordChar (c : Char) : Bool := c.isAlphanum || c = '_'

/-- Split a character list at every separator character (regex-style
split, keeping empty fields). -/
def splitOnPred (p : Char → Bool) : List Char → List (List Char)
  | [] => [[]]
  | c :: rest =>
    match splitOnPred p rest with
    | [] => [[]]
    | g :: gs => if p c then [] :: g :: gs else (c :: g) :: gs

/-- Whole-word matching as the specification words it ("word-boundary
delimited, case-insensitive"): some blacklisted word equals one of the
maximal word-character runs of the lowercased text. Stated from the spec to
compare against `blacklist_run`. -/
def specWholeWordMatch (words : List String) (t : String) : Bool :=
  words.any fun w =>
    (splitOnPred (fun c => !(isWordChar c)) (lowerStr t.toList)).contains (lowerStr w.toList)

/-- Feed a list of non-command message timestamps through `SpamCheck.run`
(with the configured `ignore_commands=True`), collecting verdicts. -/
def spamSim (interval : Int) (limit : Nat) : List Int → List Int → List Int × List Bool
  | q, [] => (q, [])
  | q, t :: rest =>
    let (d, q1) := spam_check_run interval limit true false q t
    let (qf, ds) := spamSim interval limit q1 rest
    (qf, d :: ds)

/-! ### Concrete pipeline scenarios (C1, C2, C3) -/

/-- A non-command, non-bot message from user 7 in group (guild) 1 whose
content hits the default blacklist; the "Muted" role exists and the author
does not carry it. -/
def msgA (t : Int) : Msg :=
  { author_bot := false, guild := some 1, author_id := 7, content := "badword",
    timestamp := t, is_command := false, mute_role_exists := true,
    author_has_mute_role := false }

/-- The same message sent in group (guild) 2. -/
def msgB (t : Int) : Msg := { msgA t with guild := some 2 }

/-- A remote toxicity service that always fails (never reached in the
blacklist scenarios anyway, since the pipeline short-circuits). -/
def oracleNone : Nat → Option String := fun _ => none

/-- State after user 7 has accumulated two blacklist violations in group 1
(both within the decay window). -/
def twoWarnState : ModState :=
  (processAll defaultConfig oracleNone initialState [msgA 0, msgA 1]).1

/-- Processing a third violating message from user 7: the warning count
reaches the threshold 3 and the mute path runs. -/
def muteScenario : ModState × List Effect :=
  process defaultConfig oracleNone (msgA 2) twoWarnState

/-- Execution one: user 7's only group-1 message. -/
def groupRunL1 : ModState × List (List Effect) :=
  processAll defaultConfig oracleNone initialState [msgA 2]

/-- Execution two: identical group-1 traffic, plus two earlier messages by
the same user in group 2. -/
def groupRunL2 : ModState × List (List Effect) :=
  processAll defaultConfig oracleNone initialState [msgB 0, msgB 1, msgA 2]

/-! ### Helper lemmas -/

theorem containsSub_correct (w : List Char) :
    ∀ t : List Char, containsSub w t = true ↔ w <:+: t := by
  intro t
  induction t with
  | nil => simp [containsSub, List.isEmpty_iff]
  | cons c rest ih =>
    simp [containsSub, ih, List.infix_cons_iff]

theorem blacklist_run_iff (words : List String) (t : String)
    (h : stripChars (joinBar (words.map String.toList)) ≠ []) :
    blacklist_run words t = true
      ↔ ∃ w ∈ words, lowerStr w.toList <:+: lowerStr t.toList := by
  unfold blacklist_run
  rw [if_neg h]
  simp [containsSub_correct]

/-! ### Claim theorems -/

/-- C4: on remote failure (the `except` branch of `ToxicityCheck.run`) the
classifier resolves to `False` — it does not raise. But the resolved verdict
is unconditionally `false`; the correction is that it does **not** equal the
`BlacklistCheck` result for the same text. -/
theorem c4_failure_returns_false (oracle : Nat → Option String) (idx : Nat)
    (content : String) (h : oracle idx = none) :
    toxicity_run oracle idx content = (false, idx + 1) := by
  unfold toxicity_run
  rw [h]

/-- Witness for C4 at a concrete failing oracle and text. -/
theorem c4_witness :
    (fun _ : Nat => (none : Option String)) 0 = none ∧
      toxicity_run (fun _ => none) 0 "badword" = (false, 1) :=
  ⟨rfl, c4_failure_returns_false (fun _ => none) 0 "badword" rfl⟩

/-- C4 counterexample: with the remote call failing and no local model (the
code has none), the verdict for "badword" is `false`, while the
`BlacklistCheck` result for the same text is `true` — the claimed equality
with the blacklist fallback is false. -/
theorem c4_counterexample :
    (toxicity_run (fun _ => none) 0 "badword").1 = false ∧
      blacklist_run defaultWords "badword" = true ∧
      (toxicity_run (fun _ => none) 0 "badword").1 ≠ blacklist_run defaultWords "badword" := by
  refine ⟨rfl, ?_, ?_⟩ <;> decide

/-- C5 counterexample: there is no classification cache. Classifying the
same text twice from call index 0 consumes two remote calls (final index 2,
not 1), and with a remote service answering "YES" then "NO" the two
verdicts differ — refuting "exactly one remote call and two identical
verdicts". -/
theorem c5_counterexample :
    (toxicity_run (fun i => if i = 0 then some "YES" else some "NO") 0 "hello").2 = 1 ∧
    (toxicity_run (fun i => if i = 0 then some "YES" else some "NO")
      (toxicity_run (fun i => if i = 0 then some "YES" else some "NO") 0 "hello").2
      "hello").2 = 2 ∧
    (toxicity_run (fun i => if i = 0 then some "YES" else some "NO") 0 "hello").1 = true ∧
    (toxicity_run (fun i => if i = 0 then some "YES" else some "NO")
      (toxicity_run (fun i => if i = 0 then some "YES" else some "NO") 0 "hello").2
      "hello").1 = false := by
  refine ⟨rfl, rfl, ?_, ?_⟩ <;> decide

/-- C5 amended: `ToxicityCheck.run` has no cache — every classification
performs exactly one remote call, so classifying the same text twice
performs exactly two remote calls (whatever the remote outcomes are). -/
theorem c5_no_cache (oracle : Nat → Option String) (idx : Nat) (t : String) :
    (toxicity_run oracle idx t).2 = idx + 1 ∧
      (toxicity_run oracle (toxicity_run oracle idx t).2 t).2 = idx + 2 := by
  unfold toxicity_run
  cases h1 : oracle idx <;> cases h2 : oracle (idx + 1) <;> simp [h1, h2]

/-- C6 counterexample: the compiled pattern has no word-boundary anchors,
so the blacklisted word "ban" *does* match inside "banana", while the
spec's whole-word matching does not — refuting "reports a match iff t
contains w as a whole word". -/
theorem c6_counterexample :
    blacklist_run ["ban"] "banana" = true ∧
      specWholeWordMatch ["ban"] "banana" = false := by
  constructor <;> decide

/-- C6 amended: matching is case-insensitive **substring** matching (no
word boundaries): for a non-degenerate pattern the check reports a match
iff some blacklisted word occurs, case-folded, as a contiguous substring of
the text — so "ban" matches "ban", "BAN", "Ban!" and also inside
"banana". -/
theorem c6_substring_semantics (words : List String) (t : String)
    (h : stripChars (joinBar (words.map String.toList)) ≠ []) :
    blacklist_run words t = true
      ↔ ∃ w ∈ words, lowerStr w.toList <:+: lowerStr t.toList :=
  blacklist_run_iff words t h

/-- Witness for C6 at the concrete blacklist ["ban"] and text "banana". -/
theorem c6_witness :
    stripChars (joinBar (["ban"].map String.toList)) ≠ [] ∧
      (blacklist_run ["ban"] "banana" = true
        ↔ ∃ w ∈ ["ban"], lowerStr w.toList <:+: lowerStr "banana".toList) :=
  ⟨by decide, c6_substring_semantics ["ban"] "banana" (by decide)⟩

/-- C8: warning decay. Recording a violation at `t0` and querying the
count at `now` yields the count the pruned prior history alone would give,
plus 1 if `now < t0 + decayWindow` and 0 otherwise: the entry is kept
exactly when `now - t0 < decayWindow`, i.e. pruned when
`now - t0 ≥ decayWindow`. -/
theorem c8_warning_decay (D t0 now : Int) (r : UserRecord) :
    (get_warning_count D now (increment_warning D t0 r).1).2
      = (get_warning_count D now (decay_old_warnings D t0 r)).2
        + (if now < t0 + D then 1 else 0) := by
  unfold get_warning_count increment_warning decay_old_warnings
  simp only [List.filter_append, List.length_append, List.filter_filter]
  by_cases hlt : now - t0 < D
  · rw [if_pos (by omega : now < t0 + D)]
    simp [List.filter_cons, hlt]
  · rw [if_neg (by omega : ¬ now < t0 + D)]
    simp [List.filter_cons, hlt]

/-- C10: messages from bot accounts or outside a guild (DMs) make
`MessageProcessor.process` return immediately: the state is untouched and
no effect (no check, deletion, warning, mute, or command processing) is
emitted. -/
theorem c10_early_return (cfg : Config) (oracle : Nat → Option String) (msg : Msg)
    (s : ModState) (h : msg.author_bot = true ∨ msg.guild = none) :
    process cfg oracle msg s = (s, []) := by
  rcases h with h | h <;> simp [process, h]

/-- Witness for C10 at a concrete bot-authored message. -/
theorem c10_witness :
    ((true = true ∨ (some 1 : Option Nat) = none) ∧
      process defaultConfig (fun _ => none)
        { author_bot := true, guild := some 1, author_id := 7, content := "hi",
          timestamp := 0, is_command := false, mute_role_exists := true,
          author_has_mute_role := false }
        initialState = (initialState, [])) :=
  ⟨Or.inl rfl,
    c10_early_return defaultConfig (fun _ => none)
      { author_bot := true, guild := some 1, author_id := 7, content := "hi",
        timestamp := 0, is_command := false, mute_role_exists := true,
        author_has_mute_role := false }
      initialState (Or.inl rfl)⟩

/-- C9: after each warning operation the stored counter equals the length
of the warning-history list (given it did before, which holds from the
defaultdict initial state `0 = length []`); the counter never increases
across `decay_old_warnings`, `get_warning_count` or `clear_warnings`, and
`increment_warning` sets it to exactly the decayed count plus one — so any
increase is by exactly 1 and caused by `increment_warning`. -/
theorem c9_counter_invariant (D now : Int) (r : UserRecord)
    (h : r.warnings = r.history.length) :
    ((decay_old_warnings D now r).warnings = (decay_old_warnings D now r).history.length
      ∧ (decay_old_warnings D now r).warnings ≤ r.warnings)
    ∧ ((increment_warning D now r).1.warnings = (increment_warning D now r).1.history.length
      ∧ (increment_warning D now r).1.warnings = (decay_old_warnings D now r).warnings + 1
      ∧ (increment_warning D now r).1.warnings ≤ r.warnings + 1)
    ∧ ((get_warning_count D now r).1.warnings = (get_warning_count D now r).1.history.length
      ∧ (get_warning_count D now r).2 ≤ r.warnings)
    ∧ ((clear_warnings r).warnings = (clear_warnings r).history.length
      ∧ (clear_warnings r).warnings ≤ r.warnings) := by
  have hdec : (decay_old_warnings D now r).warnings ≤ r.warnings := by
    rw [h]
    exact List.length_filter_le _ _
  refine ⟨⟨rfl, hdec⟩, ⟨?_, rfl, ?_⟩, ⟨rfl, hdec⟩, ⟨rfl, Nat.zero_le _⟩⟩
  · simp [increment_warning, decay_old_warnings]
  · exact Nat.succ_le_succ hdec

/-- Witness for C9 at a concrete record satisfying the invariant. -/
theorem c9_witness :
    (UserRecord.warnings ⟨2, [(1, 0), (2, 5)], 0, []⟩
        = (UserRecord.history ⟨2, [(1, 0), (2, 5)], 0, []⟩).length)
    ∧ (((decay_old_warnings 10 7 ⟨2, [(1, 0), (2, 5)], 0, []⟩).warnings
          = (decay_old_warnings 10 7 ⟨2, [(1, 0), (2, 5)], 0, []⟩).history.length
        ∧ (decay_old_warnings 10 7 ⟨2, [(1, 0), (2, 5)], 0, []⟩).warnings
          ≤ UserRecord.warnings ⟨2, [(1, 0), (2, 5)], 0, []⟩)
      ∧ ((increment_warning 10 7 ⟨2, [(1, 0), (2, 5)], 0, []⟩).1.warnings
          = (increment_warning 10 7 ⟨2, [(1, 0), (2, 5)], 0, []⟩).1.history.length
        ∧ (increment_warning 10 7 ⟨2, [(1, 0), (2, 5)], 0, []⟩).1.warnings
          = (decay_old_warnings 10 7 ⟨2, [(1, 0), (2, 5)], 0, []⟩).warnings + 1
        ∧ (increment_warning 10 7 ⟨2, [(1, 0), (2, 5)], 0, []⟩).1.warnings
          ≤ UserRecord.warnings ⟨2, [(1, 0), (2, 5)], 0, []⟩ + 1)
      ∧ ((get_warning_count 10 7 ⟨2, [(1, 0), (2, 5)], 0, []⟩).1.warnings
          = (get_warning_count 10 7 ⟨2, [(1, 0), (2, 5)], 0, []⟩).1.history.length
        ∧ (get_warning_count 10 7 ⟨2, [(1, 0), (2, 5)], 0, []⟩).2
          ≤ UserRecord.warnings ⟨2, [(1, 0), (2, 5)], 0, []⟩)
      ∧ ((clear_warnings ⟨2, [(1, 0), (2, 5)], 0, []⟩).warnings
          = (clear_warnings ⟨2, [(1, 0), (2, 5)], 0, []⟩).history.length
        ∧ (clear_warnings ⟨2, [(1, 0), (2, 5)], 0, []⟩).warnings
          ≤ UserRecord.warnings ⟨2, [(1, 0), (2, 5)], 0, []⟩)) :=
  ⟨rfl, c9_counter_invariant 10 7 ⟨2, [(1, 0), (2, 5)], 0, []⟩ rfl⟩

/-! ### Spam window lemmas (C7) -/

theorem deque_append_eq (q : List Int) (t : Int) (h : q.length + 1 ≤ 20) :
    deque_append 20 q t = q ++ [t] := by
  have hlt : ¬ 20 < (q ++ [t]).length := by
    rw [List.length_append]
    simp only [List.length_cons, List.length_nil]
    omega
  simp only [deque_append]
  rw [if_neg hlt]

theorem deque_append_length_le (q : List Int) (t : Int) :
    (deque_append 20 q t).length ≤ 20 := by
  simp only [deque_append]
  by_cases hlt : 20 < (q ++ [t]).length
  · rw [if_pos hlt, List.length_drop]
    omega
  · rw [if_neg hlt]
    omega

theorem prune_old_keep (interval now : Int) (q : List Int)
    (h : ∀ a ∈ q, now - a ≤ interval) : prune_old interval now q = q := by
  cases q with
  | nil => rfl
  | cons t rest =>
    unfold prune_old
    rw [if_neg]
    have := h t (List.mem_cons_self t rest)
    omega

theorem prune_old_length_le (interval now : Int) (q : List Int) :
    (prune_old interval now q).length ≤ q.length := by
  induction q with
  | nil => simp [prune_old]
  | cons t rest ih =>
    unfold prune_old
    by_cases hc : interval < now - t
    · simp only [hc, if_true]
      exact Nat.le_trans ih (Nat.le_succ _)
    · simp [hc]

theorem spam_step (interval : Int) (limit : Nat) (q : List Int) (t : Int)
    (hlen : q.length + 1 ≤ 20) (h : ∀ a ∈ q ++ [t], t - a ≤ interval) :
    spam_check_run interval limit true false q t
      = (decide (limit ≤ q.length + 1), q ++ [t]) := by
  unfold spam_check_run
  rw [if_neg (by decide : ¬ ((true && false) = true))]
  simp only [deque_append_eq q t hlen, prune_old_keep interval t (q ++ [t]) h,
    List.length_append, List.length_cons, List.length_nil]

theorem spamSim_spec (interval : Int) (limit : Nat) : ∀ (ts q : List Int),
    q.length + ts.length ≤ 20 →
    (∀ a ∈ q ++ ts, ∀ b ∈ ts, b - a ≤ interval) →
    spamSim interval limit q ts
      = (q ++ ts, (List.range ts.length).map fun k => decide (limit ≤ q.length + k + 1)) := by
  intro ts
  induction ts with
  | nil => intro q _ _; simp [spamSim]
  | cons t rest ih =>
    intro q hlen hspan
    have hmem : ∀ a ∈ q ++ [t], t - a ≤ interval := by
      intro a ha
      rcases List.mem_append.1 ha with ha | ha
      · exact hspan a (List.mem_append_left _ ha) t (List.mem_cons_self _ _)
      · have : a = t := by simpa using ha
        subst this
        exact hspan a (List.mem_append_right _ (List.mem_cons_self _ _)) a
          (List.mem_cons_self _ _)
    have hstep := spam_step interval limit q t (by simp at hlen ⊢; omega) hmem
    have hrec := ih (q ++ [t])
      (by simp [List.length_append] at hlen ⊢; omega)
      (by
        intro a ha b hb
        rcases List.mem_append.1 ha with ha | ha
        · rcases List.mem_append.1 ha with ha | ha
          · exact hspan a (List.mem_append_left _ ha) b (List.mem_cons_of_mem _ hb)
          · have : a = t := by simpa using ha
            subst this
            exact hspan a (List.mem_append_right _ (List.mem_cons_self _ _)) b
              (List.mem_cons_of_mem _ hb)
        · exact hspan a (List.mem_append_right _ (List.mem_cons_of_mem _ ha)) b
            (List.mem_cons_of_mem _ hb))
    unfold spamSim
    rw [hstep]
    simp only [hrec]
    rw [Prod.mk.injEq]
    constructor
    · simp
    · rw [List.length_cons, List.range_succ_eq_map, List.map_cons, List.map_map]
      refine congrArg₂ List.cons ?_ ?_
      · rw [decide_eq_decide]
      · apply List.map_congr_left
        intro k _
        simp only [Function.comp_apply, List.length_append, List.length_cons,
          List.length_nil]
        rw [decide_eq_decide]
        omega

/-- C7 counterexample: with the configured burst limit N = 5 (interval 4),
six messages inside the window leave six entries in the user's spam window
— the deque capacity is the hardcoded 20, not the burst limit; and with a
burst limit N = 21 ≥ 2, the 21st message within the window does *not*
report a burst (the capped deque never reaches 21 entries). -/
theorem c7_counterexample :
    (spamSim 4 5 [] [0, 0, 0, 0, 0, 0]).1.length = 6 ∧
      ¬ ((spamSim 4 5 [] [0, 0, 0, 0, 0, 0]).1.length ≤ 5) ∧
      (spamSim 4 21 [] (List.replicate 21 0)).2.getLast?.getD true = false := by
  refine ⟨rfl, by decide, by decide⟩

/-- C7 amended: for messages all within the window, the k-th message
reports a burst exactly when k ≥ N — in particular the N-th triggers and
the (N−1)-th does not — provided at most 20 messages are involved (2 ≤ N ≤
20 included); and the spam window holds at most 20 entries (the hardcoded
deque capacity), not at most N. -/
theorem c7_burst_window (interval : Int) (limit : Nat) (ts : List Int)
    (hlen : ts.length ≤ 20)
    (hspan : ∀ a ∈ ts, ∀ b ∈ ts, b - a ≤ interval) :
    (spamSim interval limit [] ts).2
        = (List.range ts.length).map (fun k => decide (limit ≤ k + 1))
    ∧ ∀ (q : List Int) (t : Int), q.length ≤ 20 →
        (spam_check_run interval limit true false q t).2.length ≤ 20 := by
  constructor
  · have := spamSim_spec interval limit ts [] (by simpa using hlen) (by simpa using hspan)
    rw [this]
    simp
  · intro q t _
    unfold spam_check_run
    rw [if_neg (by decide : ¬ ((true && false) = true))]
    exact Nat.le_trans (prune_old_length_le _ _ _) (deque_append_length_le q t)

/-- Witness for C7 with burst limit 2 and two in-window messages: the
second triggers, the first does not. -/
theorem c7_witness :
    (([0, 0] : List Int).length ≤ 20 ∧ ∀ a ∈ ([0, 0] : List Int), ∀ b ∈ ([0, 0] : List Int),
        b - a ≤ (4 : Int)) ∧
      ((spamSim 4 2 [] [0, 0]).2 = (List.range ([0, 0] : List Int).length).map
          (fun k => decide (2 ≤ k + 1))
        ∧ ∀ (q : List Int) (t : Int), q.length ≤ 20 →
            (spam_check_run 4 2 true false q t).2.length ≤ 20) :=
  ⟨⟨by decide, by decide⟩, c7_burst_window 4 2 [0, 0] (by decide) (by decide)⟩

/-! ### C1: mute durability -/

theorem mute_user_no_persist (msg : Msg) (s : ModState) :
    ∀ e ∈ (mute_user msg s).2, e.isPersist = false := by
  unfold mute_user
  by_cases ha : msg.author_has_mute_role = true <;>
    by_cases hr : msg.mute_role_exists = true <;>
      simp [ha, hr, Effect.isPersist]

theorem issue_warning_no_persist (cfg : Config) (msg : Msg) (s : ModState) :
    ∀ e ∈ (issue_warning cfg msg s).2, e.isPersist = false := by
  unfold issue_warning
  by_cases hth : cfg.warning_threshold ≤ (increment_warning cfg.warning_decay_seconds
      msg.timestamp (s.users msg.author_id)).2
  · simp only [if_pos hth]
    intro e he
    rcases List.mem_append.1 he with he | he
    · simp only [List.mem_cons, List.not_mem_nil, or_false] at he
      rcases he with rfl | rfl <;> rfl
    · exact mute_user_no_persist msg _ e he
  · simp only [if_neg hth]
    intro e he
    simp only [List.mem_cons, List.not_mem_nil, or_false] at he
    rcases he with rfl | rfl <;> rfl

theorem process_no_persist (cfg : Config) (oracle : Nat → Option String) (msg : Msg)
    (s : ModState) :
    ∀ e ∈ (process cfg oracle msg s).2, e.isPersist = false := by
  unfold process
  by_cases hbot : (msg.author_bot || msg.guild.isNone) = true
  · simp [hbot]
  · simp only [if_neg hbot]
    by_cases hcmd : msg.is_command = true
    · simp [hcmd, Effect.isPersist]
    · simp only [if_neg hcmd]
      by_cases hspam : (spam_check_run cfg.spam_interval cfg.spam_limit
          cfg.ignore_commands false (s.users msg.author_id).spam msg.timestamp).1 = true
      · simp only [hspam, if_true, ite_true]
        intro e he
        simp only [List.mem_cons] at he
        rcases he with rfl | he
        · rfl
        · exact issue_warning_no_persist cfg msg _ e he
      · simp only [hspam, Bool.false_eq_true, if_false, ite_false]
        by_cases hbl : blacklist_run cfg.words msg.content = true
        · simp only [hbl, if_true, ite_true]
          intro e he
          simp only [List.mem_cons] at he
          rcases he with rfl | he
          · rfl
          · exact issue_warning_no_persist cfg msg _ e he
        · simp only [hbl, Bool.false_eq_true, if_false, ite_false]
          by_cases htox : (toxicity_run oracle (setUser s msg.author_id
              { s.users msg.author_id with
                spam := (spam_check_run cfg.spam_interval cfg.spam_limit
                  cfg.ignore_commands false (s.users msg.author_id).spam
                  msg.timestamp).2 }).oracle_idx msg.content).1 = true
          · simp only [htox, if_true, ite_true]
            intro e he
            simp only [List.mem_cons] at he
            rcases he with rfl | he
            · rfl
            · exact issue_warning_no_persist cfg msg _ e he
          · simp only [htox, Bool.false_eq_true, if_false, ite_false]
            intro e he
            simp only [List.mem_cons, List.not_mem_nil, or_false] at he
            subst he
            rfl

/-- C1 counterexample: in a run where the warning threshold is crossed and
a mute is imposed (the "Muted" role is applied to user 7), the effect trace
of the imposing call contains no durable-storage write at all — the mute
record claimed to be persisted before the impose returns does not exist. -/
theorem c1_counterexample :
    Effect.addMuteRole 7 ∈ muteScenario.2 ∧
      (muteScenario.2.all fun e => !e.isPersist) = true := by
  constructor <;> decide

/-- C1 amended: `mute_user` records the mute only in the in-memory mute
counter and the platform role; no pipeline path ever emits a
durable-storage write, so an active mute is not discoverable (nor liftable)
after a process restart. -/
theorem c1_no_durable_write (cfg : Config) (oracle : Nat → Option String) (msg : Msg)
    (s : ModState) :
    ((process cfg oracle msg s).2.all fun e => !e.isPersist) = true := by
  rw [List.all_eq_true]
  intro e he
  rw [Bool.not_eq_true']
  exact process_no_persist cfg oracle msg s e he

/-! ### C2: group scoping -/

/-- C2 counterexample: the two executions differ only in messages sent in
group 2, yet the decision observed for user 7's (identical) group-1 message
differs: alone it draws warning #1 and no mute, but after two group-2
violations the same group-1 message triggers a mute — per-user state is not
scoped by group. -/
theorem c2_counterexample :
    (msgA 2).guild = some 1 ∧ (msgB 0).guild = some 2 ∧ (msgB 1).guild = some 2 ∧
      Effect.addMuteRole 7 ∉ groupRunL1.2.getD 0 [] ∧
      Effect.addMuteRole 7 ∈ groupRunL2.2.getD 2 [] := by
  refine ⟨rfl, rfl, rfl, ?_, ?_⟩ <;> decide

/-- C2 amended: all per-user moderation state is keyed by user id alone;
the pipeline never reads which guild a (guild-carried) message came from,
so a user's warnings and mutes are shared across groups — message traffic
in one group changes the decisions for the same user in another. -/
theorem c2_group_blind (cfg : Config) (oracle : Nat → Option String) (msg : Msg)
    (s : ModState) (g g' : Nat) :
    process cfg oracle { msg with guild := some g } s
      = process cfg oracle { msg with guild := some g' } s := rfl

/-! ### C3: mute does not consume warnings -/

/-- C3 counterexample: on user 7's third violation the mute is imposed
(the "Muted" role is applied), yet the warning count immediately after is
3 — the threshold — not 0: no `clear_warnings` call follows the mute. -/
theorem c3_counterexample :
    Effect.addMuteRole 7 ∈ muteScenario.2 ∧
      (muteScenario.1.users 7).warnings = 3 ∧
      (muteScenario.1.users 7).warnings ≠ 0 := by
  refine ⟨by decide, by decide, by decide⟩

/-- C3 amended: `issue_warning` leaves the warning count at the decayed
count plus one — it is never reset by the mute path — and (when the author
is not already muted) the mute is imposed exactly when that count reaches
the threshold. -/
theorem c3_warning_not_cleared (cfg : Config) (msg : Msg) (s : ModState)
    (hrole : msg.author_has_mute_role = false) :
    ((issue_warning cfg msg s).1.users msg.author_id).warnings
        = (decay_old_warnings cfg.warning_decay_seconds msg.timestamp
            (s.users msg.author_id)).warnings + 1
    ∧ (Effect.addMuteRole msg.author_id ∈ (issue_warning cfg msg s).2
        ↔ cfg.warning_threshold
            ≤ ((issue_warning cfg msg s).1.users msg.author_id).warnings) := by
  by_cases hth : cfg.warning_threshold ≤ (decay_old_warnings cfg.warning_decay_seconds
      msg.timestamp (s.users msg.author_id)).warnings + 1
  · constructor
    · simp [issue_warning, mute_user, setUser, increment_mutes, increment_warning,
        hth, hrole]
    · simp [issue_warning, mute_user, setUser, increment_mutes, increment_warning,
        hth, hrole]
  · constructor
    · simp [issue_warning, setUser, increment_warning, hth]
    · simp [issue_warning, setUser, increment_warning, hth]

/-- Witness for C3 at a first violation from user 7 on the initial state
(count becomes 1, below the threshold 3, so no mute effect). -/
theorem c3_witness :
    (msgA 0).author_has_mute_role = false ∧
      (((issue_warning defaultConfig (msgA 0) initialState).1.users
            (msgA 0).author_id).warnings
          = (decay_old_warnings defaultConfig.warning_decay_seconds (msgA 0).timestamp
              (initialState.users (msgA 0).author_id)).warnings + 1
        ∧ (Effect.addMuteRole (msgA 0).author_id
              ∈ (issue_warning defaultConfig (msgA 0) initialState).2
            ↔ defaultConfig.warning_threshold
                ≤ ((issue_warning defaultConfig (msgA 0) initialState).1.users
                    (msgA 0).author_id).warnings)) :=
  ⟨rfl, c3_warning_not_cleared defaultConfig (msgA 0) initialState rfl⟩

end AutoMod
